import Mathlib

/-!
# The `/api/ask` relay of `server/index.js`

A shallow embedding of the request handler of `server/index.js`: the falsy check on the four
request fields, the `switch` that maps a content type to a template key, the template lookup
with its `||` fallback, the three chained `String.prototype.replace` calls, the call of the
completion client and the `catch` block that turns a thrown error into a response.

JavaScript values are the values `JSON.parse` can produce, plus `undefined` for a property that
is absent. Strings are sequences of characters; every text the handler searches for is ASCII, so
searching by character and searching by UTF-16 code unit find the same places. Strings with
unpaired surrogates are outside the model.
-/

namespace AskServer

/-! ## Values -/

/-- A JavaScript value as it reaches the handler: what a JSON document can hold, and `undefined`
for a missing property. Numbers are integers: the handler only tests a number for zero, compares
it with 429, 401 and 402, or prints it. -/
inductive JsVal where
  | undefined
  | null
  | bool (b : Bool)
  | num (n : Int)
  | str (s : String)
  | arr (items : List JsVal)
  | obj (fields : List (String × JsVal))

/-- The value tested by `!v`, `v || w` and `if (v)`: `undefined`, `null`, `false`, `0` and the
empty string are falsy, every other value (arrays and objects included) is truthy. -/
def truthy : JsVal → Bool
  | .undefined => false
  | .null => false
  | .bool b => b
  | .num n => n != 0
  | .str s => s != ""
  | .arr _ => true
  | .obj _ => true

/-- The operator `a || b`: `a` when it is truthy, `b` otherwise. -/
def jsOr (a b : JsVal) : JsVal :=
  if truthy a then a else b

/-- Reading `o[key]` on a parsed JSON object given by its own properties (their names are
distinct): the stored value, or `undefined` when the object has no such property. None of the
names the handler reads is inherited from `Object.prototype`. -/
def getProp : List (String × JsVal) → String → JsVal
  | [], _ => .undefined
  | (k, v) :: rest, key => if k = key then v else getProp rest key

/-- Whether the object has an own property `key`. -/
def hasOwn (fields : List (String × JsVal)) (key : String) : Bool :=
  fields.any (fun p => p.1 == key)

/-- The comparison `v === n` with a number literal `n`. -/
def isNum (v : JsVal) (n : Int) : Bool :=
  match v with
  | .num m => m == n
  | _ => false

/-- The comparison `v === s` with a string literal `s`. -/
def isStr (v : JsVal) (s : String) : Bool :=
  match v with
  | .str t => t == s
  | _ => false

/-- A thrown error, seen through the two properties the `catch` block reads. Both the errors of
the completion client and the `TypeError`s of the runtime are objects; a property the object
lacks reads as `undefined`. -/
structure JsError where
  status : JsVal
  type : JsVal

/-- A `TypeError` raised by the runtime: it has neither a `status` nor a `type` property. -/
def typeError : JsError := ⟨.undefined, .undefined⟩

mutual
/-- The conversion `ToString(v)` that `replace` applies to its second argument. An object whose
own `toString` property shadows the inherited method cannot be converted (a JSON value is never
callable, and the inherited `valueOf` returns the object itself): a `TypeError`. An array is
joined with commas. -/
def JsVal.toStr : JsVal → Except JsError String
  | .undefined => .ok "undefined"
  | .null => .ok "null"
  | .bool b => .ok (if b then "true" else "false")
  | .num n => .ok (toString n)
  | .str s => .ok s
  | .arr items =>
    match itemStrs items with
    | .error e => .error e
    | .ok parts => .ok (",".intercalate parts)
  | .obj fields => if hasOwn fields "toString" then .error typeError else .ok "[object Object]"
/-- The texts `Array.prototype.join` puts between the commas: the empty string for `undefined`
and `null`, `ToString` of the item otherwise. -/
def itemStrs : List JsVal → Except JsError (List String)
  | [] => .ok []
  | .undefined :: rest =>
    match itemStrs rest with
    | .error e => .error e
    | .ok parts => .ok ("" :: parts)
  | .null :: rest =>
    match itemStrs rest with
    | .error e => .error e
    | .ok parts => .ok ("" :: parts)
  | x :: rest =>
    match JsVal.toStr x with
    | .error e => .error e
    | .ok a =>
      match itemStrs rest with
      | .error e => .error e
      | .ok parts => .ok (a :: parts)
end

/-! ## String primitives -/

/-- The method `String.prototype.toLowerCase`, on the ASCII letters. The handler compares the
result with ASCII case labels only. Outside ASCII the real method may change a character, but
the only character outside ASCII that it turns into pure ASCII text is U+212A (the Kelvin sign,
which becomes `k`), and no case label contains a `k`; so which label matches, if any, is the
same for this definition and for the real method. -/
def toLowerCase (s : String) : String :=
  String.mk (s.data.map Char.toLower)

/-- The abstract operation `StringIndexOf(s, pat, 0)`: the least position at which `pat` starts
in `s`, if there is one. -/
def indexOf : List Char → List Char → Option Nat
  | [], pat => if pat.isPrefixOf [] then some 0 else none
  | c :: cs, pat =>
    if pat.isPrefixOf (c :: cs) then some 0
    else (indexOf cs pat).map (fun i => i + 1)

/-- The abstract operation `GetSubstitution` for a string pattern (no capture groups): in the
replacement text `$$` stands for `$`, `$&` for the matched text, `$` followed by a backtick for
the text before the match and `$` followed by an apostrophe for the text after it. Any other
`$` (before a digit, before `<`, or at the end) is kept as it is. -/
def getSubstitution (matched before after : List Char) : List Char → List Char
  | [] => []
  | [c] => [c]
  | c :: d :: rest =>
    if c = '$' then
      if d = '$' then '$' :: getSubstitution matched before after rest
      else if d = '&' then matched ++ getSubstitution matched before after rest
      else if d = Char.ofNat 96 then before ++ getSubstitution matched before after rest
      else if d = Char.ofNat 39 then after ++ getSubstitution matched before after rest
      else c :: getSubstitution matched before after (d :: rest)
    else c :: getSubstitution matched before after (d :: rest)

/-- The method `s.replace(pat, rep)` with a string pattern and a string replacement: only the
first occurrence of `pat` is replaced, by the expansion of `rep`; without an occurrence the
result is `s`. -/
def replace (s pat rep : String) : String :=
  match indexOf s.data pat.data with
  | none => s
  | some pos =>
    let preserved := s.data.take pos
    let tail := s.data.drop (pos + pat.data.length)
    String.mk (preserved ++ getSubstitution pat.data preserved tail rep.data ++ tail)

/-! ## The handler of `POST /api/ask` -/

/-- The `switch` over the lower-cased content type (lines 37-61). -/
def switchTemplateKey (lowered : String) : String :=
  if lowered = "summary" ∨ lowered = "lesson summary" then "lesson_summary"
  else if lowered = "practice" ∨ lowered = "practice problems" then "practice_problems"
  else if lowered = "step-by-step" ∨ lowered = "step by step" ∨ lowered = "step_by_step" then
    "step_by_step_solution"
  else if lowered = "concept" ∨ lowered = "concept explanation" then "concept_explanation"
  else if lowered = "quiz" ∨ lowered = "quiz questions" then "quiz_questions"
  else "lesson_summary"

/-- The content-type resolver: `contentType.toLowerCase()` followed by the `switch`. Only a
string has a `toLowerCase` method; calling it on any other value is a `TypeError`. -/
def resolveTemplateKey : JsVal → Except JsError String
  | .str contentType => .ok (switchTemplateKey (toLowerCase contentType))
  | _ => .error typeError

/-- The lookup `promptTemplates[templateKey] || promptTemplates["lesson_summary"]` (line 63). -/
def selectTemplate (promptTemplates : List (String × JsVal)) (templateKey : String) : JsVal :=
  jsOr (getProp promptTemplates templateKey) (getProp promptTemplates "lesson_summary")

/-- The three chained replacements of lines 66-69 on a template string and string values. -/
def composePrompt (template grade topic question : String) : String :=
  replace (replace (replace template "{grade}" grade) "{topic}" topic) "{question}" question

/-- Lines 66-69 on the values of the request: `.replace` exists on a string only, and each
replacement value goes through `ToString`. -/
def composeFromValues (prompt grade topic question : JsVal) : Except JsError String :=
  match prompt with
  | .str template =>
    match grade.toStr with
    | .error e => .error e
    | .ok g =>
      match topic.toStr with
      | .error e => .error e
      | .ok t =>
        match (jsOr question (.str "")).toStr with
        | .error e => .error e
        | .ok q => .ok (composePrompt template g t q)
  | _ => .error typeError

/-- A message of a completion. -/
structure Message where
  content : JsVal

/-- One choice of a completion. -/
structure Choice where
  message : Message

/-- The reply of `openai.chat.completions.create`. -/
structure ChatCompletion where
  choices : List Choice
  usage : JsVal

/-- What the handler does that can be observed from outside, in order. -/
inductive Event where
  | resolved (templateKey : String)
  | gatewayCall (prompt : String)
  | logged
  | response (status : Nat) (body : JsVal)

/-- The run of the handler: the events in order, and the error that left the handler, if one
did. -/
structure Run where
  trace : List Event
  escaped : Option JsError

/-- The responses sent during a run, as pairs of status and body. -/
def responses : List Event → List (Nat × JsVal)
  | [] => []
  | .response status body :: rest => (status, body) :: responses rest
  | _ :: rest => responses rest

/-- The prompts passed to the completion client during a run. -/
def gatewayCalls : List Event → List String
  | [] => []
  | .gatewayCall prompt :: rest => prompt :: gatewayCalls rest
  | _ :: rest => gatewayCalls rest

/-- The template keys the resolver produced during a run. -/
def resolverRuns : List Event → List String
  | [] => []
  | .resolved key :: rest => key :: resolverRuns rest
  | _ :: rest => resolverRuns rest

/-- The body of the `try` block (lines 35-88): the events up to the point where it ends, and the
error it throws, if it throws. `create` is the completion client, `startTime` and `endTime` are
the two readings of `Date.now()`. -/
def tryBlock (promptTemplates : List (String × JsVal))
    (create : String → Except JsError ChatCompletion) (startTime endTime : Int)
    (grade topic contentType question : JsVal) : List Event × Option JsError :=
  match resolveTemplateKey contentType with
  | .error e => ([], some e)
  | .ok templateKey =>
    match composeFromValues (selectTemplate promptTemplates templateKey) grade topic question with
    | .error e => ([.resolved templateKey], some e)
    | .ok prompt =>
      match create prompt with
      | .error e => ([.resolved templateKey, .gatewayCall prompt], some e)
      | .ok chatCompletion =>
        match chatCompletion.choices with
        | [] => ([.resolved templateKey, .gatewayCall prompt], some typeError)
        | first :: _ =>
          ([.resolved templateKey, .gatewayCall prompt,
            .response 200 (.obj [("result", first.message.content),
              ("generationTimeMs", .num (endTime - startTime)),
              ("usage", jsOr chatCompletion.usage .null)])], none)

/-- The `catch` block (lines 89-120): the error is logged and answered. -/
def catchBlock (error : JsError) : List Event :=
  if isNum error.status 429 then
    if isStr error.type "insufficient_quota" then
      [.logged, .response 429 (.obj [
        ("error", .str "You've exceeded your OpenAI API quota. Please check your plan and billing."),
        ("type", .str "insufficient_quota")])]
    else
      [.logged, .response 429 (.obj [
        ("error", .str "Too many requests. Please wait before trying again."),
        ("type", .str "rate_limit_exceeded")])]
  else if isNum error.status 401 then
    [.logged, .response 401 (.obj [("error", .str "Invalid API key."),
      ("type", .str "invalid_api_key")])]
  else if isNum error.status 402 then
    [.logged, .response 402 (.obj [("error", .str "Insufficient quota. Please add billing info."),
      ("type", .str "insufficient_quota")])]
  else
    [.logged, .response 500 (.obj [("error", .str "Something went wrong with the AI service."),
      ("type", .str "server_error")])]

/-- The handler of `POST /api/ask` (lines 27-121) on the parsed request body. -/
def askHandler (promptTemplates : List (String × JsVal))
    (create : String → Except JsError ChatCompletion) (startTime endTime : Int)
    (body : List (String × JsVal)) : Run :=
  let grade := getProp body "grade"
  let topic := getProp body "topic"
  let contentType := getProp body "contentType"
  let question := getProp body "question"
  if !truthy grade || !truthy topic || !truthy contentType || !truthy question then
    ⟨[.response 400 (.obj [("error", .str "Missing required fields")])], none⟩
  else
    match tryBlock promptTemplates create startTime endTime grade topic contentType question with
    | (events, none) => ⟨events, none⟩
    | (events, some error) => ⟨events ++ catchBlock error, none⟩

/-! ## Words of the specification -/

/-- The request passes the check of line 30: all four fields are truthy. -/
def Validated (body : List (String × JsVal)) : Prop :=
  truthy (getProp body "grade") = true ∧ truthy (getProp body "topic") = true ∧
    truthy (getProp body "contentType") = true ∧ truthy (getProp body "question") = true

/-- The run answered the request once, with the 500 response of lines 116-119, and no error
left the handler. -/
def AnsweredServerError (run : Run) : Prop :=
  responses run.trace = [(500, .obj [("error", .str "Something went wrong with the AI service."),
    ("type", .str "server_error")])] ∧ run.escaped = none

/-- The token `tok` occurs somewhere in the text `s`. -/
def Occurs (tok s : String) : Prop :=
  tok.data <:+: s.data

instance (tok s : String) : Decidable (Occurs tok s) := by
  unfold Occurs
  infer_instance

/-- In the text `pre ++ tok ++ post` no occurrence of `tok` starts before the one shown. -/
def LeftmostAt (tok pre post : String) : Prop :=
  ∀ a b : List Char, pre.data ++ tok.data ++ post.data = a ++ tok.data ++ b →
    pre.data.length ≤ a.length

/-- The text holds one of the two-character sequences that `replace` expands in a replacement:
`$$`, `$&`, `$` with a backtick, `$` with an apostrophe. -/
def HasDollarPattern (v : String) : Prop :=
  ['$', '$'] <:+: v.data ∨ ['$', '&'] <:+: v.data ∨ ['$', Char.ofNat 96] <:+: v.data ∨
    ['$', Char.ofNat 39] <:+: v.data

instance (v : String) : Decidable (HasDollarPattern v) := by
  unfold HasDollarPattern
  infer_instance

/-- Two texts are equal up to the case of their ASCII letters. -/
def EqIgnoreCase (s t : String) : Prop :=
  List.Forall₂ (fun c d : Char => c = d ∨ c.toLower = d ∨ c = d.toLower) s.data t.data

/-! # Theorems -/

/-! ## The resolver -/

/-- Lowering a text that equals a lower-case text up to letter case gives that text. -/
theorem map_toLower_of_forall₂ {s t : List Char}
    (h : List.Forall₂ (fun c d : Char => c = d ∨ c.toLower = d ∨ c = d.toLower) s t)
    (ht : t.map Char.toLower = t) : s.map Char.toLower = t := by
  induction h with
  | nil => rfl
  | cons hcd _ ih =>
    rw [List.map_cons, List.cons.injEq] at ht
    rw [List.map_cons, ih ht.2]
    rcases hcd with h | h | h
    · rw [h, ht.1]
    · rw [h]
    · rw [h, ht.1, ht.1]

/-- The string form of `map_toLower_of_forall₂`. -/
theorem toLowerCase_of_eqIgnoreCase {s t : String} (h : EqIgnoreCase s t)
    (ht : toLowerCase t = t) : toLowerCase s = t := by
  have h1 : t.data.map Char.toLower = t.data := congrArg String.data ht
  have h2 := map_toLower_of_forall₂ h h1
  simp only [toLowerCase, h2]

/-- Claim C4. A content type that equals one of the eleven synonyms up to letter case resolves
to the canonical key of the synonym's group, which is also the key its group's first member
resolves to. -/
theorem resolver_synonyms (s syn first key : String)
    (hsyn : (syn, first, key) ∈
      [("summary", "summary", "lesson_summary"),
       ("lesson summary", "summary", "lesson_summary"),
       ("practice", "practice", "practice_problems"),
       ("practice problems", "practice", "practice_problems"),
       ("step-by-step", "step-by-step", "step_by_step_solution"),
       ("step by step", "step-by-step", "step_by_step_solution"),
       ("step_by_step", "step-by-step", "step_by_step_solution"),
       ("concept", "concept", "concept_explanation"),
       ("concept explanation", "concept", "concept_explanation"),
       ("quiz", "quiz", "quiz_questions"),
       ("quiz questions", "quiz", "quiz_questions")])
    (hs : EqIgnoreCase s syn) :
    resolveTemplateKey (.str s) = .ok key ∧
      resolveTemplateKey (.str s) = resolveTemplateKey (.str first) := by
  simp only [List.mem_cons, Prod.mk.injEq, List.mem_singleton, List.not_mem_nil, or_false] at hsyn
  rcases hsyn with h | h | h | h | h | h | h | h | h | h | h <;>
    obtain ⟨rfl, rfl, rfl⟩ := h <;>
    · have hl := toLowerCase_of_eqIgnoreCase hs (by decide)
      simp only [resolveTemplateKey, hl]
      exact ⟨congrArg Except.ok (by decide), congrArg Except.ok (by decide)⟩

/-- Claim C4 at `"Lesson SUMMARY"`, a mixed-case spelling of the synonym `lesson summary`. -/
theorem resolver_synonyms_witness :
    EqIgnoreCase "Lesson SUMMARY" "lesson summary" ∧
      resolveTemplateKey (.str "Lesson SUMMARY") = .ok "lesson_summary" ∧
      resolveTemplateKey (.str "Lesson SUMMARY") = resolveTemplateKey (.str "summary") :=
  ⟨by unfold EqIgnoreCase; decide,
    resolver_synonyms "Lesson SUMMARY" "lesson summary" "summary" "lesson_summary" (by simp)
      (by unfold EqIgnoreCase; decide)⟩

/-- Claim C5. A content type whose lower-cased form is none of the eleven synonyms resolves to
`lesson_summary` without an error; so do a synonym with surrounding blanks, a synonym with a
punctuation mark added and a canonical key name. -/
theorem resolver_default (s : String)
    (h : toLowerCase s ∉ ["summary", "lesson summary", "practice", "practice problems",
      "step-by-step", "step by step", "step_by_step", "concept", "concept explanation",
      "quiz", "quiz questions"]) :
    resolveTemplateKey (.str s) = .ok "lesson_summary" ∧
      resolveTemplateKey (.str " quiz ") = .ok "lesson_summary" ∧
      resolveTemplateKey (.str "quiz!") = .ok "lesson_summary" ∧
      resolveTemplateKey (.str "step.by.step") = .ok "lesson_summary" ∧
      resolveTemplateKey (.str "quiz_questions") = .ok "lesson_summary" := by
  simp only [List.mem_cons, List.mem_singleton, List.not_mem_nil, or_false, not_or] at h
  obtain ⟨h1, h2, h3, h4, h5, h6, h7, h8, h9, h10, h11⟩ := h
  refine ⟨?_, congrArg Except.ok (by decide), congrArg Except.ok (by decide),
    congrArg Except.ok (by decide), congrArg Except.ok (by decide)⟩
  simp [resolveTemplateKey, switchTemplateKey, h1, h2, h3, h4, h5, h6, h7, h8, h9, h10, h11]

/-- Claim C5 at the canonical key name `practice_problems`, which is not a synonym. -/
theorem resolver_default_witness :
    resolveTemplateKey (.str "practice_problems") = .ok "lesson_summary" :=
  (resolver_default "practice_problems" (by decide)).1

/-! ## The handler -/

/-- The falsy values are `undefined`, `null`, the empty string, `0` and `false`. -/
theorem truthy_eq_false_iff (v : JsVal) :
    truthy v = false ↔
      (v = .undefined ∨ v = .null ∨ v = .str "" ∨ v = .num 0 ∨ v = .bool false) := by
  cases v <;> simp [truthy]

/-- Claim C1. When one of `grade`, `topic`, `contentType`, `question` is absent from the request
body or holds `null`, the empty string, `0` or `false`, the handler sends the single response
400 with body `{error: "Missing required fields"}`; the resolver and the completion client are
not invoked and no error leaves the handler. -/
theorem missing_field_400 (promptTemplates : List (String × JsVal))
    (create : String → Except JsError ChatCompletion) (startTime endTime : Int)
    (body : List (String × JsVal)) (field : String)
    (hfield : field ∈ ["grade", "topic", "contentType", "question"])
    (hfalsy : getProp body field = .undefined ∨ getProp body field = .null ∨
      getProp body field = .str "" ∨ getProp body field = .num 0 ∨
      getProp body field = .bool false) :
    (askHandler promptTemplates create startTime endTime body).trace =
        [.response 400 (.obj [("error", .str "Missing required fields")])] ∧
      responses (askHandler promptTemplates create startTime endTime body).trace =
        [(400, .obj [("error", .str "Missing required fields")])] ∧
      resolverRuns (askHandler promptTemplates create startTime endTime body).trace = [] ∧
      gatewayCalls (askHandler promptTemplates create startTime endTime body).trace = [] ∧
      (askHandler promptTemplates create startTime endTime body).escaped = none := by
  have hf := (truthy_eq_false_iff _).mpr hfalsy
  have hcond : (!truthy (getProp body "grade") || !truthy (getProp body "topic") ||
      !truthy (getProp body "contentType") || !truthy (getProp body "question")) = true := by
    simp only [List.mem_cons, List.mem_singleton, List.not_mem_nil, or_false] at hfield
    rcases hfield with rfl | rfl | rfl | rfl <;> simp [hf]
  simp only [askHandler, hcond, if_true, responses, resolverRuns, gatewayCalls, and_self]

/-- Claim C1 at a request whose `topic` is the empty string and whose `question` is absent. -/
theorem missing_field_400_witness :
    responses (askHandler [("lesson_summary", .str "Explain {topic}.")]
        (fun _ => .error typeError) 1000 1250
        [("grade", .str "5"), ("topic", .str ""), ("contentType", .str "quiz")]).trace =
      [(400, .obj [("error", .str "Missing required fields")])] :=
  (missing_field_400 [("lesson_summary", .str "Explain {topic}.")]
    (fun _ => .error typeError) 1000 1250
    [("grade", .str "5"), ("topic", .str ""), ("contentType", .str "quiz")] "topic" (by simp)
    (Or.inr (Or.inr (Or.inl rfl)))).2.1

/-- A validated request enters the `try` block; its error, if any, goes to the `catch` block. -/
theorem askHandler_of_validated (promptTemplates : List (String × JsVal))
    (create : String → Except JsError ChatCompletion) (startTime endTime : Int)
    (body : List (String × JsVal)) (hvalid : Validated body) :
    askHandler promptTemplates create startTime endTime body =
      match tryBlock promptTemplates create startTime endTime (getProp body "grade")
          (getProp body "topic") (getProp body "contentType") (getProp body "question") with
      | (events, none) => ⟨events, none⟩
      | (events, some error) => ⟨events ++ catchBlock error, none⟩ := by
  obtain ⟨h1, h2, h3, h4⟩ := hvalid
  simp [askHandler, h1, h2, h3, h4]

/-- The test `v === n` succeeds exactly on the number `n`. -/
theorem isNum_eq_true_iff (v : JsVal) (n : Int) : isNum v n = true ↔ v = .num n := by
  cases v <;> simp [isNum]

/-- The test `v === s` succeeds exactly on the string `s`. -/
theorem isStr_eq_true_iff (v : JsVal) (s : String) : isStr v s = true ↔ v = .str s := by
  cases v <;> simp [isStr]

/-- The `try` block up to a failing call of the completion client. -/
theorem tryBlock_of_create_error (promptTemplates : List (String × JsVal))
    (create : String → Except JsError ChatCompletion) (startTime endTime : Int)
    (grade topic contentType question : JsVal) (key prompt : String) (e : JsError)
    (hkey : resolveTemplateKey contentType = .ok key)
    (hprompt : composeFromValues (selectTemplate promptTemplates key) grade topic question =
      .ok prompt)
    (hfail : create prompt = .error e) :
    tryBlock promptTemplates create startTime endTime grade topic contentType question =
      ([.resolved key, .gatewayCall prompt], some e) := by
  simp [tryBlock, hkey, hprompt, hfail]

/-- Claim C2. For a validated request whose call of the completion client fails with the error
`e`: status 429 with type `insufficient_quota` is answered 429 with type `insufficient_quota`;
status 429 with another or no type is answered 429 with type `rate_limit_exceeded`; status 401
is answered 401 with type `invalid_api_key`; status 402 is answered 402 with type
`insufficient_quota`. Each time it is the only response. -/
theorem gateway_error_mapping (promptTemplates : List (String × JsVal))
    (create : String → Except JsError ChatCompletion) (startTime endTime : Int)
    (body : List (String × JsVal)) (key prompt : String) (e : JsError)
    (hvalid : Validated body)
    (hkey : resolveTemplateKey (getProp body "contentType") = .ok key)
    (hprompt : composeFromValues (selectTemplate promptTemplates key) (getProp body "grade")
      (getProp body "topic") (getProp body "question") = .ok prompt)
    (hfail : create prompt = .error e) :
    (e.status = .num 429 → e.type = .str "insufficient_quota" →
      responses (askHandler promptTemplates create startTime endTime body).trace =
        [(429, .obj [("error",
            .str "You've exceeded your OpenAI API quota. Please check your plan and billing."),
          ("type", .str "insufficient_quota")])]) ∧
    (e.status = .num 429 → e.type ≠ .str "insufficient_quota" →
      responses (askHandler promptTemplates create startTime endTime body).trace =
        [(429, .obj [("error", .str "Too many requests. Please wait before trying again."),
          ("type", .str "rate_limit_exceeded")])]) ∧
    (e.status = .num 401 →
      responses (askHandler promptTemplates create startTime endTime body).trace =
        [(401, .obj [("error", .str "Invalid API key."), ("type", .str "invalid_api_key")])]) ∧
    (e.status = .num 402 →
      responses (askHandler promptTemplates create startTime endTime body).trace =
        [(402, .obj [("error", .str "Insufficient quota. Please add billing info."),
          ("type", .str "insufficient_quota")])]) := by
  rw [askHandler_of_validated _ _ _ _ _ hvalid,
    tryBlock_of_create_error _ _ _ _ _ _ _ _ key prompt e hkey hprompt hfail]
  refine ⟨fun hs ht => ?_, fun hs ht => ?_, fun hs => ?_, fun hs => ?_⟩
  · have h1 := (isNum_eq_true_iff e.status 429).mpr hs
    have h2 := (isStr_eq_true_iff e.type "insufficient_quota").mpr ht
    simp [catchBlock, h1, h2, responses]
  · have h1 := (isNum_eq_true_iff e.status 429).mpr hs
    have h2 : isStr e.type "insufficient_quota" = false := by
      cases h : isStr e.type "insufficient_quota"
      · rfl
      · exact absurd ((isStr_eq_true_iff _ _).mp h) ht
    simp [catchBlock, h1, h2, responses]
  · simp [catchBlock, hs, isNum, responses]
  · simp [catchBlock, hs, isNum, responses]

/-- Claim C2 at a request for a quiz whose completion call fails with status 429 and type
`insufficient_quota`. -/
theorem gateway_error_mapping_witness :
    responses (askHandler [("lesson_summary", .str "Explain {topic} for grade {grade}: {question}")]
        (fun _ => .error ⟨.num 429, .str "insufficient_quota"⟩) 1000 1250
        [("grade", .str "5"), ("topic", .str "fractions"), ("contentType", .str "Quiz"),
          ("question", .str "What is a half?")]).trace =
      [(429, .obj [("error",
          .str "You've exceeded your OpenAI API quota. Please check your plan and billing."),
        ("type", .str "insufficient_quota")])] :=
  (gateway_error_mapping [("lesson_summary", .str "Explain {topic} for grade {grade}: {question}")]
    (fun _ => .error ⟨.num 429, .str "insufficient_quota"⟩) 1000 1250
    [("grade", .str "5"), ("topic", .str "fractions"), ("contentType", .str "Quiz"),
      ("question", .str "What is a half?")]
    "quiz_questions" "Explain fractions for grade 5: What is a half?"
    ⟨.num 429, .str "insufficient_quota"⟩
    ⟨rfl, rfl, rfl, rfl⟩ rfl rfl rfl).1 rfl rfl

/-- The responses of two traces in a row. -/
theorem responses_append (xs ys : List Event) :
    responses (xs ++ ys) = responses xs ++ responses ys := by
  induction xs with
  | nil => rfl
  | cons x xs ih => cases x <;> simp [responses, ih]

/-- The `catch` block sends exactly one response. -/
theorem responses_catchBlock_length (e : JsError) : (responses (catchBlock e)).length = 1 := by
  unfold catchBlock
  split_ifs <;> rfl

/-- The `catch` block answers 500 when the status is none of 429, 401, 402. -/
theorem responses_catchBlock_other (e : JsError) (h429 : e.status ≠ .num 429)
    (h401 : e.status ≠ .num 401) (h402 : e.status ≠ .num 402) :
    responses (catchBlock e) =
      [(500, .obj [("error", .str "Something went wrong with the AI service."),
        ("type", .str "server_error")])] := by
  have h1 : isNum e.status 429 = false := by
    cases h : isNum e.status 429
    · rfl
    · exact absurd ((isNum_eq_true_iff _ _).mp h) h429
  have h2 : isNum e.status 401 = false := by
    cases h : isNum e.status 401
    · rfl
    · exact absurd ((isNum_eq_true_iff _ _).mp h) h401
  have h3 : isNum e.status 402 = false := by
    cases h : isNum e.status 402
    · rfl
    · exact absurd ((isNum_eq_true_iff _ _).mp h) h402
  simp [catchBlock, h1, h2, h3, responses]

/-- The `try` block either throws before any response or ends with exactly one response. -/
theorem tryBlock_cases (promptTemplates : List (String × JsVal))
    (create : String → Except JsError ChatCompletion) (startTime endTime : Int)
    (grade topic contentType question : JsVal) :
    (∃ events e, tryBlock promptTemplates create startTime endTime grade topic contentType
        question = (events, some e) ∧ responses events = []) ∨
    (∃ events, tryBlock promptTemplates create startTime endTime grade topic contentType
        question = (events, none) ∧ (responses events).length = 1) := by
  unfold tryBlock
  split
  · exact Or.inl ⟨_, _, rfl, rfl⟩
  · split
    · exact Or.inl ⟨_, _, rfl, rfl⟩
    · split
      · exact Or.inl ⟨_, _, rfl, rfl⟩
      · split
        · exact Or.inl ⟨_, _, rfl, rfl⟩
        · exact Or.inr ⟨_, rfl, rfl⟩

/-- An error of the `try` block with a status other than 429, 401, 402 is answered 500. -/
theorem answered_of_throw (promptTemplates : List (String × JsVal))
    (create : String → Except JsError ChatCompletion) (startTime endTime : Int)
    (body : List (String × JsVal)) (hvalid : Validated body) (events : List Event) (e : JsError)
    (hthrow : tryBlock promptTemplates create startTime endTime (getProp body "grade")
      (getProp body "topic") (getProp body "contentType") (getProp body "question") =
        (events, some e))
    (h429 : e.status ≠ .num 429) (h401 : e.status ≠ .num 401) (h402 : e.status ≠ .num 402) :
    AnsweredServerError (askHandler promptTemplates create startTime endTime body) := by
  have hev : responses events = [] := by
    rcases tryBlock_cases promptTemplates create startTime endTime (getProp body "grade")
      (getProp body "topic") (getProp body "contentType") (getProp body "question") with
      ⟨ev, e2, h, hr⟩ | ⟨ev, h, _⟩
    · rw [hthrow] at h
      cases h
      exact hr
    · rw [hthrow] at h
      cases h
  unfold AnsweredServerError
  rw [askHandler_of_validated _ _ _ _ _ hvalid, hthrow]
  simp only [responses_append, hev, List.nil_append,
    responses_catchBlock_other e h429 h401 h402, and_self]

/-- Claim C3. For a validated request, every error thrown inside the `try` block whose status
is not 429, 401 or 402 is answered by exactly one response, 500 with body
`{error: "Something went wrong with the AI service.", type: "server_error"}`, and does not
leave the handler. This covers an error of the completion client with another or no status, a
content type that is not a string, a template set with neither the selected nor the default
template, and a reply with an empty list of choices. Whatever happens, a validated request gets
exactly one response and no error leaves the handler. -/
theorem unmapped_failure_500 (promptTemplates : List (String × JsVal))
    (create : String → Except JsError ChatCompletion) (startTime endTime : Int)
    (body : List (String × JsVal)) (hvalid : Validated body) :
    (∀ events e,
      tryBlock promptTemplates create startTime endTime (getProp body "grade")
        (getProp body "topic") (getProp body "contentType") (getProp body "question") =
          (events, some e) →
      e.status ≠ .num 429 → e.status ≠ .num 401 → e.status ≠ .num 402 →
      AnsweredServerError (askHandler promptTemplates create startTime endTime body)) ∧
    (∀ key prompt e, resolveTemplateKey (getProp body "contentType") = .ok key →
      composeFromValues (selectTemplate promptTemplates key) (getProp body "grade")
        (getProp body "topic") (getProp body "question") = .ok prompt →
      create prompt = .error e →
      e.status ≠ .num 429 → e.status ≠ .num 401 → e.status ≠ .num 402 →
      AnsweredServerError (askHandler promptTemplates create startTime endTime body)) ∧
    ((∀ s, getProp body "contentType" ≠ .str s) →
      AnsweredServerError (askHandler promptTemplates create startTime endTime body)) ∧
    (∀ key, resolveTemplateKey (getProp body "contentType") = .ok key →
      getProp promptTemplates key = .undefined →
      getProp promptTemplates "lesson_summary" = .undefined →
      AnsweredServerError (askHandler promptTemplates create startTime endTime body)) ∧
    (∀ key prompt reply, resolveTemplateKey (getProp body "contentType") = .ok key →
      composeFromValues (selectTemplate promptTemplates key) (getProp body "grade")
        (getProp body "topic") (getProp body "question") = .ok prompt →
      create prompt = .ok reply → reply.choices = [] →
      AnsweredServerError (askHandler promptTemplates create startTime endTime body)) ∧
    (askHandler promptTemplates create startTime endTime body).escaped = none ∧
    (responses (askHandler promptTemplates create startTime endTime body).trace).length = 1 := by
  refine ⟨fun events e h => answered_of_throw _ _ _ _ _ hvalid events e h, ?_, ?_, ?_, ?_, ?_⟩
  · intro key prompt e hkey hprompt hfail
    exact answered_of_throw _ _ _ _ _ hvalid _ e
      (tryBlock_of_create_error _ _ _ _ _ _ _ _ key prompt e hkey hprompt hfail)
  · intro hns
    have hres : resolveTemplateKey (getProp body "contentType") = .error typeError := by
      cases hc : getProp body "contentType" <;> first | rfl | exact absurd hc (hns _)
    refine answered_of_throw _ _ _ _ _ hvalid [] typeError ?_ (by simp [typeError])
      (by simp [typeError]) (by simp [typeError])
    simp [tryBlock, hres]
  · intro key hkey h1 h2
    refine answered_of_throw _ _ _ _ _ hvalid [.resolved key] typeError ?_ (by simp [typeError])
      (by simp [typeError]) (by simp [typeError])
    simp [tryBlock, hkey, selectTemplate, h1, h2, jsOr, truthy, composeFromValues]
  · intro key prompt reply hkey hprompt hok hempty
    refine answered_of_throw _ _ _ _ _ hvalid [.resolved key, .gatewayCall prompt] typeError ?_
      (by simp [typeError]) (by simp [typeError]) (by simp [typeError])
    simp [tryBlock, hkey, hprompt, hok, hempty]
  · rw [askHandler_of_validated _ _ _ _ _ hvalid]
    rcases tryBlock_cases promptTemplates create startTime endTime (getProp body "grade")
      (getProp body "topic") (getProp body "contentType") (getProp body "question") with
      ⟨ev, e, h, hr⟩ | ⟨ev, h, hr⟩
    · rw [h]
      simp [responses_append, hr, responses_catchBlock_length]
    · rw [h]
      exact ⟨rfl, hr⟩

/-- Claim C3 at a request whose content type is the number 7. -/
theorem unmapped_failure_500_witness :
    AnsweredServerError (askHandler [] (fun _ => .error ⟨.num 500, .undefined⟩) 1000 1250
      [("grade", .str "5"), ("topic", .str "fractions"), ("contentType", .num 7),
        ("question", .str "What is a half?")]) :=
  (unmapped_failure_500 [] (fun _ => .error ⟨.num 500, .undefined⟩) 1000 1250
    [("grade", .str "5"), ("topic", .str "fractions"), ("contentType", .num 7),
      ("question", .str "What is a half?")] ⟨rfl, rfl, rfl, rfl⟩).2.2.1
    (fun s h => by cases h)

/-- Claim C9. For a validated request whose call of the completion client returns a reply with
at least one choice, the handler calls the client once and sends the single response 200 whose
`result` is the message content of the first choice, whose `generationTimeMs` is the second
clock reading minus the first, and whose `usage` is the usage record of the reply when there is
one and `null` when the reply has none. -/
theorem success_response (promptTemplates : List (String × JsVal))
    (create : String → Except JsError ChatCompletion) (startTime endTime : Int)
    (body : List (String × JsVal)) (key prompt : String) (reply : ChatCompletion)
    (first : Choice) (others : List Choice)
    (hvalid : Validated body)
    (hkey : resolveTemplateKey (getProp body "contentType") = .ok key)
    (hprompt : composeFromValues (selectTemplate promptTemplates key) (getProp body "grade")
      (getProp body "topic") (getProp body "question") = .ok prompt)
    (hok : create prompt = .ok reply) (hchoices : reply.choices = first :: others) :
    (∀ fields, reply.usage = .obj fields →
      responses (askHandler promptTemplates create startTime endTime body).trace =
        [(200, .obj [("result", first.message.content),
          ("generationTimeMs", .num (endTime - startTime)), ("usage", .obj fields)])]) ∧
    (reply.usage = .undefined ∨ reply.usage = .null →
      responses (askHandler promptTemplates create startTime endTime body).trace =
        [(200, .obj [("result", first.message.content),
          ("generationTimeMs", .num (endTime - startTime)), ("usage", .null)])]) ∧
    gatewayCalls (askHandler promptTemplates create startTime endTime body).trace = [prompt] ∧
    (askHandler promptTemplates create startTime endTime body).escaped = none := by
  rw [askHandler_of_validated _ _ _ _ _ hvalid]
  refine ⟨?_, ?_, ?_, ?_⟩
  · intro fields h
    simp [tryBlock, hkey, hprompt, hok, hchoices, responses, jsOr, h, truthy]
  · rintro (h | h) <;> simp [tryBlock, hkey, hprompt, hok, hchoices, responses, jsOr, h, truthy]
  · simp [tryBlock, hkey, hprompt, hok, hchoices, gatewayCalls]
  · simp [tryBlock, hkey, hprompt, hok, hchoices]

/-- Claim C9 at a request answered by a reply with one choice and a usage record, with clock
readings 1000 and 1250. -/
theorem success_response_witness :
    responses (askHandler [("lesson_summary", .str "Explain {topic} for grade {grade}: {question}")]
        (fun _ => .ok ⟨[⟨⟨.str "One of two equal parts."⟩⟩], .obj [("total_tokens", .num 42)]⟩)
        1000 1250
        [("grade", .str "5"), ("topic", .str "fractions"), ("contentType", .str "Quiz"),
          ("question", .str "What is a half?")]).trace =
      [(200, .obj [("result", .str "One of two equal parts."), ("generationTimeMs", .num 250),
        ("usage", .obj [("total_tokens", .num 42)])])] :=
  (success_response [("lesson_summary", .str "Explain {topic} for grade {grade}: {question}")]
    (fun _ => .ok ⟨[⟨⟨.str "One of two equal parts."⟩⟩], .obj [("total_tokens", .num 42)]⟩)
    1000 1250
    [("grade", .str "5"), ("topic", .str "fractions"), ("contentType", .str "Quiz"),
      ("question", .str "What is a half?")]
    "quiz_questions" "Explain fractions for grade 5: What is a half?"
    ⟨[⟨⟨.str "One of two equal parts."⟩⟩], .obj [("total_tokens", .num 42)]⟩
    ⟨⟨.str "One of two equal parts."⟩⟩ [] ⟨rfl, rfl, rfl, rfl⟩ rfl rfl rfl rfl).1
    [("total_tokens", .num 42)] rfl

/-- A property that does not read as `undefined` is an own property. -/
theorem hasOwn_of_getProp_ne (fields : List (String × JsVal)) (key : String)
    (h : getProp fields key ≠ .undefined) : hasOwn fields key = true := by
  induction fields with
  | nil => exact absurd rfl h
  | cons p rest ih =>
    obtain ⟨k, v⟩ := p
    by_cases hk : k = key
    · simp [hasOwn, hk]
    · have h2 : getProp rest key ≠ .undefined := by
        simpa [getProp, hk] using h
      have := ih h2
      simp only [hasOwn, List.any_cons] at this ⊢
      simp [this]

/-- Claim C10. When the template set holds a non-empty template under `lesson_summary`, then for
every validated content type that the resolver maps to a key, the key is one of the five
canonical keys and the selected template is the one stored under the key if that is a non-empty
string, the `lesson_summary` template if the key is absent or its body is the empty string; the
selected template is never `undefined`, is truthy, and is stored in the set. -/
theorem template_selection (promptTemplates : List (String × JsVal)) (fallback : String)
    (contentType : JsVal) (key : String)
    (hfallback : getProp promptTemplates "lesson_summary" = .str fallback)
    (hnonempty : fallback ≠ "")
    (_hvalid : truthy contentType = true)
    (hkey : resolveTemplateKey contentType = .ok key) :
    key ∈ ["lesson_summary", "practice_problems", "step_by_step_solution",
      "concept_explanation", "quiz_questions"] ∧
    (∀ template, getProp promptTemplates key = .str template → template ≠ "" →
      selectTemplate promptTemplates key = .str template) ∧
    (getProp promptTemplates key = .undefined ∨ getProp promptTemplates key = .str "" →
      selectTemplate promptTemplates key = .str fallback) ∧
    selectTemplate promptTemplates key ≠ .undefined ∧
    truthy (selectTemplate promptTemplates key) = true ∧
    (∃ k, hasOwn promptTemplates k = true ∧
      getProp promptTemplates k = selectTemplate promptTemplates key) := by
  have hsel : selectTemplate promptTemplates key = getProp promptTemplates key ∧
        truthy (getProp promptTemplates key) = true ∨
      selectTemplate promptTemplates key = .str fallback ∧
        truthy (getProp promptTemplates key) = false := by
    cases h : truthy (getProp promptTemplates key)
    · exact Or.inr ⟨by simp [selectTemplate, jsOr, h, hfallback], rfl⟩
    · exact Or.inl ⟨by simp [selectTemplate, jsOr, h], rfl⟩
  refine ⟨?_, ?_, ?_, ?_, ?_, ?_⟩
  · cases contentType <;> simp only [resolveTemplateKey, Except.ok.injEq] at hkey <;>
      try (exact absurd hkey (by simp))
    rw [← hkey]
    unfold switchTemplateKey
    split_ifs <;> simp
  · intro template h hne
    simp [selectTemplate, jsOr, h, truthy, hne]
  · rintro (h | h) <;> simp [selectTemplate, jsOr, h, truthy, hfallback]
  · rcases hsel with ⟨h1, h2⟩ | ⟨h1, _⟩
    · rw [h1]
      intro h
      rw [h] at h2
      exact absurd h2 (by simp [truthy])
    · rw [h1]
      exact fun h => by cases h
  · rcases hsel with ⟨h1, h2⟩ | ⟨h1, _⟩
    · rw [h1]
      exact h2
    · rw [h1]
      simp [truthy, hnonempty]
  · rcases hsel with ⟨h1, h2⟩ | ⟨h1, _⟩
    · refine ⟨key, hasOwn_of_getProp_ne _ _ ?_, h1.symm⟩
      intro h
      rw [h] at h2
      exact absurd h2 (by simp [truthy])
    · refine ⟨"lesson_summary", hasOwn_of_getProp_ne _ _ ?_, ?_⟩
      · rw [hfallback]
        exact fun h => by cases h
      · rw [h1, hfallback]

/-- Claim C10 at a template set whose `quiz_questions` template is the empty string. -/
theorem template_selection_witness :
    selectTemplate [("lesson_summary", .str "Summarise {topic}."), ("quiz_questions", .str "")]
      "quiz_questions" = .str "Summarise {topic}." :=
  (template_selection [("lesson_summary", .str "Summarise {topic}."), ("quiz_questions", .str "")]
    "Summarise {topic}." (.str "Quiz") "quiz_questions" rfl (by decide) rfl rfl).2.2.1 (Or.inr rfl)

/-! ## Searching and replacing -/

/-- The position found by `indexOf` is the start of an occurrence. -/
theorem indexOf_sound (pat : List Char) :
    ∀ (s : List Char) (n : Nat), indexOf s pat = some n →
      s = s.take n ++ pat ++ s.drop (n + pat.length) := by
  intro s
  induction s with
  | nil =>
    intro n h
    simp only [indexOf] at h
    split_ifs at h with hp
    have : pat = [] := by simpa using hp
    simp [this]
  | cons c cs ih =>
    intro n h
    simp only [indexOf] at h
    split_ifs at h with hp
    · obtain rfl : 0 = n := by simpa using h
      obtain ⟨t, ht⟩ := List.isPrefixOf_iff_prefix.mp hp
      rw [← ht]
      simp
    · cases hm : indexOf cs pat with
      | none => simp [hm] at h
      | some m =>
        rw [hm] at h
        obtain rfl : m + 1 = n := by simpa using h
        have := ih m hm
        have e : m + 1 + pat.length = (m + pat.length) + 1 := by omega
        rw [e, List.take_succ_cons, List.drop_succ_cons, List.cons_append, List.cons_append,
          ← this]

/-- A pattern at the very start is found at position 0. -/
theorem indexOf_of_isPrefixOf (pat s : List Char) (h : pat.isPrefixOf s = true) :
    indexOf s pat = some 0 := by
  cases s <;> simp only [indexOf, h, if_true]

/-- An occurrence is found, at or before any given occurrence. -/
theorem indexOf_le (pat : List Char) :
    ∀ (a b : List Char), ∃ n, indexOf (a ++ pat ++ b) pat = some n ∧ n ≤ a.length := by
  intro a
  induction a with
  | nil =>
    intro b
    exact ⟨0, indexOf_of_isPrefixOf _ _
      (List.isPrefixOf_iff_prefix.mpr (List.prefix_append pat b)), Nat.le_refl _⟩
  | cons c a ih =>
    intro b
    obtain ⟨n, hn, hle⟩ := ih b
    by_cases hp : pat.isPrefixOf (c :: a ++ pat ++ b) = true
    · exact ⟨0, indexOf_of_isPrefixOf _ _ hp, Nat.zero_le _⟩
    · refine ⟨n + 1, ?_, Nat.succ_le_succ hle⟩
      simp only [List.cons_append] at hp ⊢
      simp only [indexOf, hp, hn, Option.map_some']
      rfl

/-- Without an occurrence `indexOf` finds nothing. -/
theorem indexOf_none_of_not_occurs (tok s : String) (h : ¬Occurs tok s) :
    indexOf s.data tok.data = none := by
  cases hi : indexOf s.data tok.data with
  | none => rfl
  | some n =>
    exfalso
    apply h
    exact ⟨s.data.take n, s.data.drop (n + tok.data.length), (indexOf_sound _ _ _ hi).symm⟩

/-- The leftmost occurrence is the one `indexOf` finds. -/
theorem indexOf_of_leftmostAt (tok pre post : String) (h : LeftmostAt tok pre post) :
    indexOf (pre.data ++ tok.data ++ post.data) tok.data = some pre.data.length := by
  obtain ⟨n, hn, hle⟩ := indexOf_le tok.data pre.data post.data
  have hs := indexOf_sound _ _ _ hn
  have hge := h _ _ hs
  have hlen : ((pre.data ++ tok.data ++ post.data).take n).length = n := by
    rw [List.length_take]
    simp only [List.length_append]
    omega
  rw [hlen] at hge
  have : n = pre.data.length := Nat.le_antisymm hle hge
  rw [← this]
  exact hn

/-- The occurrence `indexOf` finds is the leftmost one. -/
theorem leftmostAt_of_indexOf (tok pre post : String)
    (h : indexOf (pre.data ++ tok.data ++ post.data) tok.data = some pre.data.length) :
    LeftmostAt tok pre post := by
  intro a b hab
  obtain ⟨n, hn, hle⟩ := indexOf_le tok.data a b
  rw [← hab, h] at hn
  obtain rfl : pre.data.length = n := by simpa using hn
  exact hle

/-- A replacement text without an expanded sequence is its own expansion. -/
theorem getSubstitution_of_no_pattern (matched before after : List Char) :
    ∀ (v : List Char),
      ¬(['$', '$'] <:+: v) → ¬(['$', '&'] <:+: v) → ¬(['$', Char.ofNat 96] <:+: v) →
      ¬(['$', Char.ofNat 39] <:+: v) →
      getSubstitution matched before after v = v := by
  intro v
  induction v with
  | nil => intros; rfl
  | cons c rest ih =>
    intro h1 h2 h3 h4
    have ih2 := ih (fun h => h1 (List.infix_cons h)) (fun h => h2 (List.infix_cons h))
      (fun h => h3 (List.infix_cons h)) (fun h => h4 (List.infix_cons h))
    cases rest with
    | nil => rfl
    | cons d rest =>
      have hpre : ∀ x : Char, c = '$' → d = x → ['$', x] <:+: c :: d :: rest := by
        intro x hc hd
        subst hc hd
        exact ⟨[], rest, rfl⟩
      by_cases hc : c = '$'
      · have n1 : ¬d = '$' := fun hd => h1 (hpre _ hc hd)
        have n2 : ¬d = '&' := fun hd => h2 (hpre _ hc hd)
        have n3 : ¬d = Char.ofNat 96 := fun hd => h3 (hpre _ hc hd)
        have n4 : ¬d = Char.ofNat 39 := fun hd => h4 (hpre _ hc hd)
        simp only [getSubstitution, hc, n1, n2, n3, n4, if_true, if_false, ih2]
      · simp only [getSubstitution, hc, if_false, ih2]

/-- Replacing a token that does not occur changes nothing. -/
theorem replace_of_not_occurs (s tok v : String) (h : ¬Occurs tok s) : replace s tok v = s := by
  simp only [replace, indexOf_none_of_not_occurs tok s h]

/-- Replacing a token puts the value in place of the leftmost occurrence. -/
theorem replace_of_leftmostAt (tok pre post v : String) (hfirst : LeftmostAt tok pre post)
    (hv : ¬HasDollarPattern v) : replace (pre ++ tok ++ post) tok v = pre ++ v ++ post := by
  have hv' : ¬(['$', '$'] <:+: v.data) ∧ ¬(['$', '&'] <:+: v.data) ∧
      ¬(['$', Char.ofNat 96] <:+: v.data) ∧ ¬(['$', Char.ofNat 39] <:+: v.data) := by
    simpa only [HasDollarPattern, not_or] using hv
  have hi := indexOf_of_leftmostAt tok pre post hfirst
  have htake : (pre.data ++ tok.data ++ post.data).take pre.data.length = pre.data := by
    rw [List.append_assoc, List.take_left']
    rfl
  have hdrop : (pre.data ++ tok.data ++ post.data).drop (pre.data.length + tok.data.length) =
      post.data := by
    rw [List.drop_left']
    simp
  apply String.ext
  simp only [replace, String.data_append, hi, htake, hdrop,
    getSubstitution_of_no_pattern _ _ _ v.data hv'.1 hv'.2.1 hv'.2.2.1 hv'.2.2.2]

/-- Claim C6, amended. The three replacements run in the order `{grade}`, `{topic}`,
`{question}`, each on the text left by the one before. When that text is `pre ++ token ++ post`
with no occurrence of the token starting earlier, and the value holds none of the sequences
`$$`, `$&`, `$` with a backtick, `$` with an apostrophe, the step yields `pre ++ value ++ post`:
only the leftmost occurrence is replaced and `post`, with every later occurrence of the token,
is kept. The template `Grade {grade}, again {grade}` with grade `5` gives
`Grade 5, again {grade}` for every topic and question. -/
theorem single_occurrence (pre post v : String) (hv : ¬HasDollarPattern v) :
    (∀ topic question, LeftmostAt "{grade}" pre post →
      composePrompt (pre ++ "{grade}" ++ post) v topic question =
        replace (replace (pre ++ v ++ post) "{topic}" topic) "{question}" question) ∧
    (∀ template grade question, replace template "{grade}" grade = pre ++ "{topic}" ++ post →
      LeftmostAt "{topic}" pre post →
      composePrompt template grade v question =
        replace (pre ++ v ++ post) "{question}" question) ∧
    (∀ template grade topic,
      replace (replace template "{grade}" grade) "{topic}" topic = pre ++ "{question}" ++ post →
      LeftmostAt "{question}" pre post →
      composePrompt template grade topic v = pre ++ v ++ post) ∧
    (∀ topic question,
      composePrompt "Grade {grade}, again {grade}" "5" topic question =
        "Grade 5, again {grade}") := by
  refine ⟨?_, ?_, ?_, ?_⟩
  · intro topic question h
    simp only [composePrompt, replace_of_leftmostAt _ _ _ _ h hv]
  · intro template grade question ht h
    simp only [composePrompt, ht, replace_of_leftmostAt _ _ _ _ h hv]
  · intro template grade topic ht h
    simp only [composePrompt, ht, replace_of_leftmostAt _ _ _ _ h hv]
  · intro topic question
    have h1 : replace "Grade {grade}, again {grade}" "{grade}" "5" = "Grade 5, again {grade}" := by
      decide
    simp only [composePrompt, h1]
    rw [replace_of_not_occurs "Grade 5, again {grade}" "{topic}" topic (by decide),
      replace_of_not_occurs "Grade 5, again {grade}" "{question}" question (by decide)]

/-- Claim C6, amended, at the template `Grade {grade}, again {grade}` and grade `5`. -/
theorem single_occurrence_witness :
    composePrompt ("Grade " ++ "{grade}" ++ ", again {grade}") "5" "fractions" "Why?" =
      replace (replace ("Grade " ++ "5" ++ ", again {grade}") "{topic}" "fractions")
        "{question}" "Why?" :=
  (single_occurrence "Grade " ", again {grade}" "5" (by decide)).1 "fractions" "Why?"
    (leftmostAt_of_indexOf _ _ _ (by decide))

/-- Claim C6 as stated fails. With grade `$&` the leftmost `{grade}` is replaced by the token
itself, not by the value. With grade `{topic}` the topic value goes where the grade value was
inserted, and the leftmost `{topic}` of the template stays literal. -/
theorem single_occurrence_counterexample :
    composePrompt "{grade}, again {grade}" "$&" "fractions" "Why?" = "{grade}, again {grade}" ∧
    composePrompt "{grade}, again {grade}" "$&" "fractions" "Why?" ≠ "$&, again {grade}" ∧
    composePrompt "{grade}: {topic} and {topic}" "{topic}" "T" "Why?" =
      "T: {topic} and {topic}" ∧
    composePrompt "{grade}: {topic} and {topic}" "{topic}" "T" "Why?" ≠
      "{topic}: T and {topic}" := by
  decide

/-- Claim C7, amended. For a template `pre ++ "{grade}" ++ post` in which no `{grade}` starts
earlier, and a grade value `v` that holds none of the sequences `$$`, `$&`, `$` with a backtick,
`$` with an apostrophe, and for which `pre ++ v ++ post` contains neither `{topic}` nor
`{question}`, the composed prompt is exactly `pre ++ v ++ post`. The same holds for `{topic}`
in a template without `{grade}` when `pre ++ v ++ post` contains no `{question}`, and for
`{question}` in a template without `{grade}` and `{topic}`. -/
theorem verbatim_insertion (pre post v : String) (hv : ¬HasDollarPattern v) :
    (∀ topic question, LeftmostAt "{grade}" pre post →
      ¬Occurs "{topic}" (pre ++ v ++ post) → ¬Occurs "{question}" (pre ++ v ++ post) →
      composePrompt (pre ++ "{grade}" ++ post) v topic question = pre ++ v ++ post) ∧
    (∀ grade question, ¬Occurs "{grade}" (pre ++ "{topic}" ++ post) →
      LeftmostAt "{topic}" pre post → ¬Occurs "{question}" (pre ++ v ++ post) →
      composePrompt (pre ++ "{topic}" ++ post) grade v question = pre ++ v ++ post) ∧
    (∀ grade topic, ¬Occurs "{grade}" (pre ++ "{question}" ++ post) →
      ¬Occurs "{topic}" (pre ++ "{question}" ++ post) → LeftmostAt "{question}" pre post →
      composePrompt (pre ++ "{question}" ++ post) grade topic v = pre ++ v ++ post) := by
  refine ⟨?_, ?_, ?_⟩
  · intro topic question h ht hq
    simp only [composePrompt, replace_of_leftmostAt _ _ _ _ h hv,
      replace_of_not_occurs _ _ _ ht, replace_of_not_occurs _ _ _ hq]
  · intro grade question hg h hq
    simp only [composePrompt, replace_of_not_occurs _ _ _ hg,
      replace_of_leftmostAt _ _ _ _ h hv, replace_of_not_occurs _ _ _ hq]
  · intro grade topic hg ht h
    simp only [composePrompt, replace_of_not_occurs _ _ _ hg, replace_of_not_occurs _ _ _ ht,
      replace_of_leftmostAt _ _ _ _ h hv]

/-- Claim C7, amended, at the template `Level {grade}.` and a grade value with a `$` that is
not part of an expanded sequence. -/
theorem verbatim_insertion_witness :
    composePrompt ("Level " ++ "{grade}" ++ ".") "5 ($10 & up)" "fractions" "Why?" =
      "Level " ++ "5 ($10 & up)" ++ "." :=
  (verbatim_insertion "Level " "." "5 ($10 & up)" (by decide)).1 "fractions" "Why?"
    (leftmostAt_of_indexOf _ _ _ (by decide)) (by decide) (by decide)

/-- Claim C7 as stated fails on the template `Level {grade}.`, which holds no other token: the
grade value `{topic}` is replaced by the topic value, and the grade values `$&`, `$$`, `$`
with a backtick and `$` with an apostrophe are expanded. The question value `$&` in
`Ask: {question}` is expanded as well. -/
theorem verbatim_insertion_counterexample :
    ¬Occurs "{topic}" "Level {grade}." ∧ ¬Occurs "{question}" "Level {grade}." ∧
    composePrompt "Level {grade}." "{topic}" "fractions" "Why?" = "Level fractions." ∧
    composePrompt "Level {grade}." "{topic}" "fractions" "Why?" ≠ "Level " ++ "{topic}" ++ "." ∧
    composePrompt "Level {grade}." "$&" "fractions" "Why?" = "Level {grade}." ∧
    composePrompt "Level {grade}." "$&" "fractions" "Why?" ≠ "Level " ++ "$&" ++ "." ∧
    composePrompt "Level {grade}." "$$" "fractions" "Why?" = "Level $." ∧
    composePrompt "Level {grade}." "$`" "fractions" "Why?" = "Level Level ." ∧
    composePrompt "Level {grade}." "$'" "fractions" "Why?" = "Level .." ∧
    composePrompt "Ask: {question}" "5" "fractions" "$&" = "Ask: {question}" ∧
    composePrompt "Ask: {question}" "5" "fractions" "$&" ≠ "Ask: " ++ "$&" ++ "" := by
  decide

/-- Claim C8, amended. When the template does not contain `{question}` and the text left by the
`{grade}` and `{topic}` replacements does not contain it either, the composed prompt is that
text for every question value, so two question values give the same prompt. -/
theorem question_not_inserted (template grade topic q1 q2 : String)
    (_htemplate : ¬Occurs "{question}" template)
    (hafter : ¬Occurs "{question}" (replace (replace template "{grade}" grade) "{topic}" topic)) :
    composePrompt template grade topic q1 = composePrompt template grade topic q2 ∧
      composePrompt template grade topic q1 =
        replace (replace template "{grade}" grade) "{topic}" topic := by
  simp only [composePrompt, replace_of_not_occurs _ _ _ hafter, and_self]

/-- Claim C8, amended, at a template without `{question}` and two question values. -/
theorem question_not_inserted_witness :
    composePrompt "Explain {topic} for grade {grade}." "5" "fractions" "Why?" =
      composePrompt "Explain {topic} for grade {grade}." "5" "fractions" "$& {grade}" :=
  (question_not_inserted "Explain {topic} for grade {grade}." "5" "fractions" "Why?" "$& {grade}"
    (by decide) (by decide)).1

/-- Claim C8 as stated fails: the template `Hi {grade}` does not contain `{question}`, but with
the grade value `{question}` the question value is inserted, so two question values give two
prompts. -/
theorem question_not_inserted_counterexample :
    ¬Occurs "{question}" "Hi {grade}" ∧
    composePrompt "Hi {grade}" "{question}" "fractions" "a" = "Hi a" ∧
    composePrompt "Hi {grade}" "{question}" "fractions" "b" = "Hi b" ∧
    composePrompt "Hi {grade}" "{question}" "fractions" "a" ≠
      composePrompt "Hi {grade}" "{question}" "fractions" "b" := by
  decide

end AskServer
